import Mathlib

/-!
Shallow embedding of `src/components/ApiKeyInput.tsx`.

The component owns three pieces of UI state (`apiKey`, `error`,
`isInitialized`) and interacts with four external collaborators:
the environment configuration (two lookups joined by JavaScript `||`),
the browser localStorage slot `openai_api_key`, the external
function `initializeOpenAI` (modelled as a parameter
`initOpenAI : String → Except JsError Unit`, since `openaiService` is an
external collaborator), and the parent callback `onApiKeySet`.

The `World` structure carries the mutable external state (the storage
slot) together with two ghost traces: the list of booleans delivered to
the parent callback and the list of calls made to `initOpenAI`
(argument and whether the call succeeded).  The three handlers of the
component — the mount effect, `handleSubmit` and `handleReset` — become
pure functions `UIState × World → UIState × World`, and reachable UI
states are generated by an inductive relation whose guards mirror the
rendering contract (the form, hence typing and submitting, is only
rendered while `isInitialized` is false; the reset button only while it
is true).
-/

/-- A JavaScript thrown value as observed by the component's catch
blocks: either a structured `Error` carrying a `message`, or any other
value identified by its string form `String(err)`. -/
inductive JsError where
  | error (message : String)
  | other (repr : String)
deriving Repr, DecidableEq

/-- Models `err instanceof Error ? err.message : String(err)` from
`handleSubmit`. -/
def errText : JsError → String
  | .error m => m
  | .other s => s

/-- Whether a call to the external initializer succeeded. -/
def isOk : Except JsError Unit → Bool
  | .ok _ => true
  | .error _ => false

/-- JavaScript `String.prototype.trim()`: drop leading and trailing
whitespace characters. -/
def jsTrim (s : String) : String :=
  String.mk (((s.data.dropWhile Char.isWhitespace).reverse.dropWhile
      Char.isWhitespace).reverse)

/-- JavaScript truthiness of an optional string (`none` models
`undefined`/`null`; the empty string is falsy). -/
def strTruthy : Option String → Bool
  | none => false
  | some s => !s.isEmpty

/-- JavaScript `a || b` on optional string values: returns `a` when it
is truthy, otherwise `b` (whatever `b` is). -/
def jsOr (a b : Option String) : Option String :=
  if strTruthy a then a else b

/-- The component's React state: `apiKey` (the controlled text field),
`error` (the error message, `null` modelled as `none`) and
`isInitialized`. -/
structure UIState where
  apiKey : String
  error : Option String
  isInitialized : Bool
deriving Repr, DecidableEq

/-- The external world seen by the component: the two environment
lookups (`import.meta.env.VITE_OPENAI_API_KEY` and
`window.process?.env?.VITE_OPENAI_API_KEY`), the localStorage slot under
`API_KEY_STORAGE_KEY`, plus two ghost traces — the booleans passed to
the parent callback `onApiKeySet`, and the calls made to the external
initializer (argument and success flag). -/
structure World where
  envVite : Option String
  envWindow : Option String
  storage : Option String
  notifications : List Bool
  initCalls : List (String × Bool)
deriving Repr, DecidableEq

/-- Models `const envApiKey = import.meta.env.VITE_OPENAI_API_KEY ||
(window as any).process?.env?.VITE_OPENAI_API_KEY`. -/
def envApiKey (w : World) : Option String :=
  jsOr w.envVite w.envWindow

/-- Ghost bookkeeping: record one call to the external initializer. -/
def recordCall (w : World) (arg : String) (ok : Bool) : World :=
  { w with initCalls := w.initCalls ++ [(arg, ok)] }

/-- Models `onApiKeySet(b)`: append one delivery to the parent-callback
trace. -/
def notifyParent (w : World) (b : Bool) : World :=
  { w with notifications := w.notifications ++ [b] }

/-- The `useEffect` mount handler: resolve `envApiKey`, read
`localStorage`, pick `keyToUse = envApiKey || savedApiKey`; when truthy,
try the initializer — on success set the field, mark initialized and
notify the parent with `true`; on failure set the fixed error text and
remove the storage slot only when the key did not come from the
environment. -/
def mount (initOpenAI : String → Except JsError Unit) (s : UIState) (w : World) :
    UIState × World :=
  let env := envApiKey w
  let savedApiKey := w.storage
  let keyToUse := jsOr env savedApiKey
  if strTruthy keyToUse then
    let k := keyToUse.getD ""
    match initOpenAI k with
    | .ok _ =>
        ({ s with apiKey := k, isInitialized := true },
         notifyParent (recordCall w k true) true)
    | .error _ =>
        let s' := { s with error := some "Failed to initialize with API key" }
        let w' := recordCall w k false
        if strTruthy env then (s', w')
        else (s', { w' with storage := none })
  else (s, w)

/-- The `handleSubmit` form handler: clear the error, reject a blank (after trim) input
with the fixed message and no external call; otherwise call the
initializer on the trimmed value — on success persist the trimmed value,
mark initialized and notify the parent with `true`; on failure set an
error message embedding the thrown value's description. -/
def handleSubmit (initOpenAI : String → Except JsError Unit) (s : UIState) (w : World) :
    UIState × World :=
  let s0 := { s with error := none }
  let trimmed := jsTrim s0.apiKey
  if trimmed.isEmpty then
    ({ s0 with error := some "API key is required" }, w)
  else
    match initOpenAI trimmed with
    | .ok _ =>
        ({ s0 with isInitialized := true },
         notifyParent { recordCall w trimmed true with storage := some trimmed } true)
    | .error err =>
        ({ s0 with error := some ("Failed to initialize OpenAI: " ++ errText err) },
         recordCall w trimmed false)

/-- The `handleReset` button handler: remove the storage slot, clear the text field, drop
`isInitialized` and notify the parent with `false`.  (The source leaves
`error` untouched.) -/
def handleReset (s : UIState) (w : World) : UIState × World :=
  ({ s with apiKey := "", isInitialized := false },
   notifyParent { w with storage := none } false)

/-- The text field's `onChange`: replace the controlled value. -/
def handleChange (v : String) (s : UIState) : UIState :=
  { s with apiKey := v }

/-- The `useState` initial values: empty field, no error, not initialized. -/
def initialUI : UIState :=
  { apiKey := "", error := none, isInitialized := false }

/-- A fresh world before mount: given environment and storage contents,
with empty ghost traces. -/
def initialWorld (ev ew st : Option String) : World :=
  { envVite := ev, envWindow := ew, storage := st,
    notifications := [], initCalls := [] }

/-- The reachable configurations of one mounted component instance: the
mount effect runs first, then any interleaving of typing, submitting
(both only while the form is rendered, i.e. `isInitialized = false`) and
resetting (only while the success view is rendered,
i.e. `isInitialized = true`). -/
inductive Reachable (initOpenAI : String → Except JsError Unit) : UIState → World → Prop where
  | mounted (ev ew st : Option String) :
      Reachable initOpenAI
        (mount initOpenAI initialUI (initialWorld ev ew st)).1
        (mount initOpenAI initialUI (initialWorld ev ew st)).2
  | changed {s : UIState} {w : World} (v : String) :
      Reachable initOpenAI s w → s.isInitialized = false →
      Reachable initOpenAI (handleChange v s) w
  | submitted {s : UIState} {w : World} :
      Reachable initOpenAI s w → s.isInitialized = false →
      Reachable initOpenAI (handleSubmit initOpenAI s w).1 (handleSubmit initOpenAI s w).2
  | didReset {s : UIState} {w : World} :
      Reachable initOpenAI s w → s.isInitialized = true →
      Reachable initOpenAI (handleReset s w).1 (handleReset s w).2

/-- A sample always-succeeding external initializer, for witnesses. -/
def okInit : String → Except JsError Unit := fun _ => .ok ()

/-- A sample always-failing external initializer (throws a structured
`Error` with message "boom"), for witnesses. -/
def failInit : String → Except JsError Unit := fun _ => .error (.error "boom")

/-- The reachable configuration obtained by mounting with no environment
and no stored credential and then submitting the (empty) form: the UI
part. -/
abbrev emptySubmitS : UIState :=
  (handleSubmit okInit (mount okInit initialUI (initialWorld none none none)).1
    (mount okInit initialUI (initialWorld none none none)).2).1

/-- The world part of the same configuration. -/
abbrev emptySubmitW : World :=
  (handleSubmit okInit (mount okInit initialUI (initialWorld none none none)).1
    (mount okInit initialUI (initialWorld none none none)).2).2

/-- C1: submitting an input whose trimmed form is non-empty and accepted
by the initializer marks the component initialized, delivers `true` to
the parent, and stores exactly the trimmed input in the storage slot. -/
theorem C1_submit_success (initOpenAI : String → Except JsError Unit)
    (s : UIState) (w : World)
    (hne : (jsTrim s.apiKey).isEmpty = false)
    (hok : initOpenAI (jsTrim s.apiKey) = .ok ()) :
    (handleSubmit initOpenAI s w).1.isInitialized = true ∧
    (handleSubmit initOpenAI s w).2.notifications = w.notifications ++ [true] ∧
    (handleSubmit initOpenAI s w).2.storage = some (jsTrim s.apiKey) := by
  simp [handleSubmit, hne, hok, notifyParent, recordCall]

/-- C1 witness: the concrete submission of "sk-test". -/
theorem C1_witness :
    (handleSubmit okInit { apiKey := "sk-test", error := none, isInitialized := false }
        (initialWorld none none none)).1.isInitialized = true ∧
    (handleSubmit okInit { apiKey := "sk-test", error := none, isInitialized := false }
        (initialWorld none none none)).2.notifications =
      (initialWorld none none none).notifications ++ [true] ∧
    (handleSubmit okInit { apiKey := "sk-test", error := none, isInitialized := false }
        (initialWorld none none none)).2.storage =
      some (jsTrim "sk-test") :=
  C1_submit_success okInit
    { apiKey := "sk-test", error := none, isInitialized := false }
    (initialWorld none none none) (by decide) rfl

/-- C2: submitting a blank (after trim) input only sets the error to
"API key is required" — the UI state is otherwise untouched and the
world is unchanged entirely: no initializer call, no storage write, no
parent notification. -/
theorem C2_submit_blank (initOpenAI : String → Except JsError Unit)
    (s : UIState) (w : World)
    (he : (jsTrim s.apiKey).isEmpty = true) :
    handleSubmit initOpenAI s w = ({ s with error := some "API key is required" }, w) := by
  cases s with
  | mk a e i => simp [handleSubmit, he]

/-- C2 witness: submitting the all-whitespace input "   ". -/
theorem C2_witness :
    handleSubmit okInit { apiKey := "   ", error := none, isInitialized := false }
        (initialWorld none none (some "kept")) =
      ({ apiKey := "   ", error := some "API key is required", isInitialized := false },
       initialWorld none none (some "kept")) :=
  C2_submit_blank okInit
    { apiKey := "   ", error := none, isInitialized := false }
    (initialWorld none none (some "kept")) (by decide)

/-- C3: at mount, when a truthy environment credential and a truthy
stored credential both exist, the environment credential is the one
passed to the initializer; and since it initializes successfully the
component marks itself initialized, puts that credential in the field,
and notifies the parent with `true`. -/
theorem C3_env_preferred (initOpenAI : String → Except JsError Unit)
    (s : UIState) (w : World)
    (henv : strTruthy (envApiKey w) = true)
    (hst : strTruthy w.storage = true)
    (hok : initOpenAI ((envApiKey w).getD "") = .ok ()) :
    (mount initOpenAI s w).2.initCalls = w.initCalls ++ [((envApiKey w).getD "", true)] ∧
    (mount initOpenAI s w).1.isInitialized = true ∧
    (mount initOpenAI s w).1.apiKey = (envApiKey w).getD "" ∧
    (mount initOpenAI s w).2.notifications = w.notifications ++ [true] := by
  simp [mount, jsOr, henv, hok, notifyParent, recordCall]

/-- C3 witness: environment "sk-env" beats stored "sk-saved". -/
theorem C3_witness :
    (mount okInit initialUI (initialWorld (some "sk-env") none (some "sk-saved"))).2.initCalls =
      (initialWorld (some "sk-env") none (some "sk-saved")).initCalls ++
        [((envApiKey (initialWorld (some "sk-env") none (some "sk-saved"))).getD "", true)] ∧
    (mount okInit initialUI (initialWorld (some "sk-env") none (some "sk-saved"))).1.isInitialized = true ∧
    (mount okInit initialUI (initialWorld (some "sk-env") none (some "sk-saved"))).1.apiKey =
      (envApiKey (initialWorld (some "sk-env") none (some "sk-saved"))).getD "" ∧
    (mount okInit initialUI (initialWorld (some "sk-env") none (some "sk-saved"))).2.notifications =
      (initialWorld (some "sk-env") none (some "sk-saved")).notifications ++ [true] :=
  C3_env_preferred okInit initialUI (initialWorld (some "sk-env") none (some "sk-saved"))
    (by decide) (by decide) rfl

/-- C4: at mount, when a credential was found but the initializer fails
on it, the error is set to the fixed text and the storage slot is erased
exactly when the credential did not come from the environment (so with
no environment credential, a stored credential the initializer rejects
is gone after mount). -/
theorem C4_mount_failure (initOpenAI : String → Except JsError Unit)
    (s : UIState) (w : World)
    (hk : strTruthy (jsOr (envApiKey w) w.storage) = true)
    (hfail : isOk (initOpenAI ((jsOr (envApiKey w) w.storage).getD "")) = false) :
    (mount initOpenAI s w).1.error = some "Failed to initialize with API key" ∧
    (mount initOpenAI s w).2.storage =
      (if strTruthy (envApiKey w) then w.storage else none) := by
  cases hinit : initOpenAI ((jsOr (envApiKey w) w.storage).getD "") with
  | ok u => rw [hinit] at hfail; simp [isOk] at hfail
  | error e =>
      cases henv : strTruthy (envApiKey w) with
      | true => simp [mount, hk, hinit, henv, recordCall]
      | false => simp [mount, hk, hinit, henv, recordCall]

/-- C4 witness: no environment credential, stored "sk-old" rejected —
after mount the slot is erased. -/
theorem C4_witness :
    (mount failInit initialUI (initialWorld none none (some "sk-old"))).1.error =
      some "Failed to initialize with API key" ∧
    (mount failInit initialUI (initialWorld none none (some "sk-old"))).2.storage =
      (if strTruthy (envApiKey (initialWorld none none (some "sk-old")))
       then (initialWorld none none (some "sk-old")).storage else none) :=
  C4_mount_failure failInit initialUI (initialWorld none none (some "sk-old"))
    (by decide) (by decide)

/-- C7: with a truthy environment credential the initializer accepts,
mount reaches the initialized state, with an outcome independent of the
storage contents and the slot untouched; reset erases only the slot,
leaving the environment lookups unchanged, so a fresh mount after reset
is initialized again from the environment credential. -/
theorem C7_env_survives_reset (initOpenAI : String → Except JsError Unit)
    (s s2 : UIState) (w : World) (st : Option String)
    (henv : strTruthy (envApiKey w) = true)
    (hok : initOpenAI ((envApiKey w).getD "") = .ok ()) :
    (mount initOpenAI s w).1.isInitialized = true ∧
    (mount initOpenAI s { w with storage := st }).1 = (mount initOpenAI s w).1 ∧
    (mount initOpenAI s { w with storage := st }).2.notifications =
      (mount initOpenAI s w).2.notifications ∧
    (mount initOpenAI s w).2.storage = w.storage ∧
    (handleReset s2 w).2.envVite = w.envVite ∧
    (handleReset s2 w).2.envWindow = w.envWindow ∧
    (handleReset s2 w).2.storage = none ∧
    (mount initOpenAI initialUI (handleReset s2 w).2).1.isInitialized = true := by
  have henv' : strTruthy (envApiKey { w with storage := st }) = true := henv
  simp [mount, handleReset, envApiKey, jsOr, notifyParent, recordCall] at henv hok ⊢
  simp [henv, hok]

/-- C7 witness: environment "sk-env" initializes, survives a reset that
clears the stored "sk-saved", and re-initializes on the next mount. -/
theorem C7_witness :
    (mount okInit initialUI (initialWorld (some "sk-env") none (some "sk-saved"))).1.isInitialized = true ∧
    (mount okInit initialUI
        { initialWorld (some "sk-env") none (some "sk-saved") with storage := some "other" }).1 =
      (mount okInit initialUI (initialWorld (some "sk-env") none (some "sk-saved"))).1 ∧
    (mount okInit initialUI
        { initialWorld (some "sk-env") none (some "sk-saved") with storage := some "other" }).2.notifications =
      (mount okInit initialUI (initialWorld (some "sk-env") none (some "sk-saved"))).2.notifications ∧
    (mount okInit initialUI (initialWorld (some "sk-env") none (some "sk-saved"))).2.storage =
      (initialWorld (some "sk-env") none (some "sk-saved")).storage ∧
    (handleReset initialUI (initialWorld (some "sk-env") none (some "sk-saved"))).2.envVite =
      (initialWorld (some "sk-env") none (some "sk-saved")).envVite ∧
    (handleReset initialUI (initialWorld (some "sk-env") none (some "sk-saved"))).2.envWindow =
      (initialWorld (some "sk-env") none (some "sk-saved")).envWindow ∧
    (handleReset initialUI (initialWorld (some "sk-env") none (some "sk-saved"))).2.storage = none ∧
    (mount okInit initialUI
        (handleReset initialUI (initialWorld (some "sk-env") none (some "sk-saved"))).2).1.isInitialized = true :=
  C7_env_survives_reset okInit initialUI initialUI
    (initialWorld (some "sk-env") none (some "sk-saved")) (some "other")
    (by decide) rfl

/-- C8: submitting a non-blank input the initializer rejects with `err`
sets the error to a message embedding `err`'s description (its message
when it is a structured `Error`, its string form otherwise), leaves the
storage slot unchanged, keeps `isInitialized` false, and delivers no
parent notification. -/
theorem C8_submit_failure (initOpenAI : String → Except JsError Unit)
    (s : UIState) (w : World) (err : JsError)
    (h0 : s.isInitialized = false)
    (hne : (jsTrim s.apiKey).isEmpty = false)
    (hf : initOpenAI (jsTrim s.apiKey) = .error err) :
    (handleSubmit initOpenAI s w).1.error =
      some ("Failed to initialize OpenAI: " ++ errText err) ∧
    (handleSubmit initOpenAI s w).2.storage = w.storage ∧
    (handleSubmit initOpenAI s w).1.isInitialized = false ∧
    (handleSubmit initOpenAI s w).2.notifications = w.notifications := by
  simp [handleSubmit, hne, hf, recordCall, h0]

/-- C8 witness: "sk-bad" rejected with Error("boom"). -/
theorem C8_witness :
    (handleSubmit failInit { apiKey := "sk-bad", error := none, isInitialized := false }
        (initialWorld none none (some "kept"))).1.error =
      some ("Failed to initialize OpenAI: " ++ errText (.error "boom")) ∧
    (handleSubmit failInit { apiKey := "sk-bad", error := none, isInitialized := false }
        (initialWorld none none (some "kept"))).2.storage =
      (initialWorld none none (some "kept")).storage ∧
    (handleSubmit failInit { apiKey := "sk-bad", error := none, isInitialized := false }
        (initialWorld none none (some "kept"))).1.isInitialized = false ∧
    (handleSubmit failInit { apiKey := "sk-bad", error := none, isInitialized := false }
        (initialWorld none none (some "kept"))).2.notifications =
      (initialWorld none none (some "kept")).notifications :=
  C8_submit_failure failInit { apiKey := "sk-bad", error := none, isInitialized := false }
    (initialWorld none none (some "kept")) (.error "boom") rfl (by decide) rfl

/-- C9: reset is idempotent in its observable effect — after a second
reset the UI state, the storage slot, the initializer-call trace and the
last value delivered to the parent are the same as after one reset. -/
theorem C9_reset_idempotent (s : UIState) (w : World) :
    (handleReset (handleReset s w).1 (handleReset s w).2).1 = (handleReset s w).1 ∧
    (handleReset (handleReset s w).1 (handleReset s w).2).2.storage =
      (handleReset s w).2.storage ∧
    (handleReset (handleReset s w).1 (handleReset s w).2).2.initCalls =
      (handleReset s w).2.initCalls ∧
    (handleReset (handleReset s w).1 (handleReset s w).2).2.notifications.getLast? =
      (handleReset s w).2.notifications.getLast? := by
  simp [handleReset, notifyParent]

/-- C10: an environment variable that is set to the empty string is
falsy, so mount behaves exactly as if it were absent: it falls back to
the stored credential when that is truthy (the initializer is called on
the stored value), and takes the no-credential path (state and world
untouched) when storage is also empty or absent. -/
theorem C10_empty_env_falls_back (initOpenAI : String → Except JsError Unit)
    (s : UIState) (w : World)
    (hv : w.envVite = some "") (hw : w.envWindow = none) :
    ((mount initOpenAI s w).1 = (mount initOpenAI s { w with envVite := none }).1 ∧
     (mount initOpenAI s w).2.storage =
       (mount initOpenAI s { w with envVite := none }).2.storage ∧
     (mount initOpenAI s w).2.notifications =
       (mount initOpenAI s { w with envVite := none }).2.notifications ∧
     (mount initOpenAI s w).2.initCalls =
       (mount initOpenAI s { w with envVite := none }).2.initCalls) ∧
    (strTruthy w.storage = true →
      (mount initOpenAI s w).2.initCalls =
        w.initCalls ++ [(w.storage.getD "", isOk (initOpenAI (w.storage.getD "")))]) ∧
    (strTruthy w.storage = false → mount initOpenAI s w = (s, w)) := by
  have henv : envApiKey w = none := by
    simp [envApiKey, jsOr, hv, hw, strTruthy, String.isEmpty]
  have henv' : envApiKey { w with envVite := none } = none := by
    simp [envApiKey, jsOr, hw, strTruthy]
  have h0 : strTruthy none = false := rfl
  cases hst : strTruthy w.storage with
  | false => simp [mount, henv, henv', jsOr, h0, hst]
  | true =>
      cases hinit : initOpenAI (w.storage.getD "") with
      | ok u =>
          simp [mount, henv, henv', jsOr, h0, hst, hinit, isOk, notifyParent, recordCall]
      | error e =>
          simp [mount, henv, henv', jsOr, h0, hst, hinit, isOk, notifyParent, recordCall]

/-- C10 witness: environment variable set to the empty string with
stored "sk-saved" — the
stored credential is the one initialized. -/
theorem C10_witness :
    ((mount okInit initialUI (initialWorld (some "") none (some "sk-saved"))).1 =
       (mount okInit initialUI
         { initialWorld (some "") none (some "sk-saved") with envVite := none }).1 ∧
     (mount okInit initialUI (initialWorld (some "") none (some "sk-saved"))).2.storage =
       (mount okInit initialUI
         { initialWorld (some "") none (some "sk-saved") with envVite := none }).2.storage ∧
     (mount okInit initialUI (initialWorld (some "") none (some "sk-saved"))).2.notifications =
       (mount okInit initialUI
         { initialWorld (some "") none (some "sk-saved") with envVite := none }).2.notifications ∧
     (mount okInit initialUI (initialWorld (some "") none (some "sk-saved"))).2.initCalls =
       (mount okInit initialUI
         { initialWorld (some "") none (some "sk-saved") with envVite := none }).2.initCalls) ∧
    (strTruthy (initialWorld (some "") none (some "sk-saved")).storage = true →
      (mount okInit initialUI (initialWorld (some "") none (some "sk-saved"))).2.initCalls =
        (initialWorld (some "") none (some "sk-saved")).initCalls ++
          [((initialWorld (some "") none (some "sk-saved")).storage.getD "",
            isOk (okInit ((initialWorld (some "") none (some "sk-saved")).storage.getD "")))]) ∧
    (strTruthy (initialWorld (some "") none (some "sk-saved")).storage = false →
      mount okInit initialUI (initialWorld (some "") none (some "sk-saved")) =
        (initialUI, initialWorld (some "") none (some "sk-saved"))) :=
  C10_empty_env_falls_back okInit initialUI (initialWorld (some "") none (some "sk-saved"))
    rfl rfl

/-- C6 counterexample: the claim says that at mount with neither an
environment nor a stored credential the parent is notified with `false`;
in the code the `if (keyToUse)` block is simply skipped, so no
notification at all is delivered. -/
theorem C6_counterexample :
    (mount okInit initialUI (initialWorld none none none)).2.notifications = [] ∧
    ¬ (false ∈ (mount okInit initialUI (initialWorld none none none)).2.notifications) := by
  constructor
  · decide
  · decide

/-- C6 amended: the parent callback receives `true` exactly when an
initialization attempt succeeds (at mount with a found credential, or on
submitting a non-blank credential), receives `false` exactly on reset,
and receives nothing on the no-credential mount path. -/
theorem C6_amended_notifications (initOpenAI : String → Except JsError Unit)
    (s : UIState) (w : World) :
    (handleReset s w).2.notifications = w.notifications ++ [false] ∧
    (handleSubmit initOpenAI s w).2.notifications = w.notifications ++
      (if !(jsTrim s.apiKey).isEmpty && isOk (initOpenAI (jsTrim s.apiKey))
       then [true] else []) ∧
    (mount initOpenAI s w).2.notifications = w.notifications ++
      (if strTruthy (jsOr (envApiKey w) w.storage)
          && isOk (initOpenAI ((jsOr (envApiKey w) w.storage).getD ""))
       then [true] else []) := by
  refine ⟨by simp [handleReset, notifyParent], ?_, ?_⟩
  · cases he : (jsTrim s.apiKey).isEmpty with
    | true => simp [handleSubmit, he]
    | false =>
        cases hinit : initOpenAI (jsTrim s.apiKey) with
        | ok u => simp [handleSubmit, he, hinit, isOk, notifyParent, recordCall]
        | error e => simp [handleSubmit, he, hinit, isOk, recordCall]
  · cases hk : strTruthy (jsOr (envApiKey w) w.storage) with
    | false => simp [mount, hk]
    | true =>
        cases hinit : initOpenAI ((jsOr (envApiKey w) w.storage).getD "") with
        | ok u => simp [mount, hk, hinit, isOk, notifyParent, recordCall]
        | error e =>
            cases henv : strTruthy (envApiKey w) with
            | true => simp [mount, hk, hinit, henv, isOk, recordCall]
            | false => simp [mount, hk, hinit, henv, isOk, recordCall]

/-- C5 counterexample: a reachable configuration in which `errorMessage`
is non-null ("API key is required") although no initialization attempt
was ever made — so the most recent attempt did not fail (there is none),
refuting "errorMessage is non-null only when the most recent
initialization attempt failed". -/
theorem C5_counterexample :
    Reachable okInit emptySubmitS emptySubmitW ∧
    emptySubmitS.error = some "API key is required" ∧
    emptySubmitW.initCalls = [] := by
  refine ⟨?_, by decide, by decide⟩
  exact Reachable.submitted (Reachable.mounted none none none) (by decide)

/-- Helper for the mount case of the state invariant: mounting from the
initial UI state over a world with an empty call trace establishes both
invariant conjuncts. -/
theorem mount_preserves_invariant (initOpenAI : String → Except JsError Unit)
    (w0 : World) (h0 : w0.initCalls = []) :
    ((mount initOpenAI initialUI w0).1.isInitialized = true →
      ∃ c, (c, true) ∈ (mount initOpenAI initialUI w0).2.initCalls ∧
        (c = (mount initOpenAI initialUI w0).1.apiKey ∨
         c = jsTrim (mount initOpenAI initialUI w0).1.apiKey)) ∧
    (∀ m, (mount initOpenAI initialUI w0).1.error = some m →
      (∃ c, (mount initOpenAI initialUI w0).2.initCalls.getLast? = some (c, false)) ∨
      m = "API key is required") := by
  cases hk : strTruthy (jsOr (envApiKey w0) w0.storage) with
  | false => simp [mount, hk, initialUI]
  | true =>
      cases hinit : initOpenAI ((jsOr (envApiKey w0) w0.storage).getD "") with
      | ok u => simp [mount, hk, hinit, initialUI, notifyParent, recordCall, h0]
      | error e =>
          cases henv : strTruthy (envApiKey w0) with
          | true => simp [mount, hk, hinit, henv, initialUI, recordCall, h0]
          | false => simp [mount, hk, hinit, henv, initialUI, recordCall, h0]

/-- C5 amended: in every reachable configuration, `isInitialized` is
true only after a successful initializer call whose argument was the
current credential (the field's value, or its trimmed form for a
manually submitted credential); and `errorMessage` is non-null only when
the most recent initialization attempt failed, or when it is the
"API key is required" validation message, which is produced without
any initializer call. -/
theorem C5_amended_invariant (initOpenAI : String → Except JsError Unit)
    (s : UIState) (w : World) (h : Reachable initOpenAI s w) :
    (s.isInitialized = true →
      ∃ c, (c, true) ∈ w.initCalls ∧ (c = s.apiKey ∨ c = jsTrim s.apiKey)) ∧
    (∀ m, s.error = some m →
      (∃ c, w.initCalls.getLast? = some (c, false)) ∨ m = "API key is required") := by
  induction h with
  | mounted ev ew st =>
      exact mount_preserves_invariant initOpenAI (initialWorld ev ew st) rfl
  | changed v hr hini ih =>
      refine ⟨?_, ?_⟩
      · intro hcontra
        rw [handleChange] at hcontra
        simp [hini] at hcontra
      · intro m hm
        exact ih.2 m hm
  | submitted hr hini ih =>
      rename_i s w
      cases he : (jsTrim s.apiKey).isEmpty with
      | true =>
          refine ⟨?_, ?_⟩
          · intro hcontra
            simp [handleSubmit, he, hini] at hcontra
          · intro m hm
            simp [handleSubmit, he] at hm
            right
            exact hm.symm
      | false =>
          cases hinit : initOpenAI (jsTrim s.apiKey) with
          | ok u =>
              refine ⟨?_, ?_⟩
              · intro _
                refine ⟨jsTrim s.apiKey, ?_, ?_⟩
                · simp [handleSubmit, he, hinit, notifyParent, recordCall]
                · right
                  simp [handleSubmit, he, hinit]
              · intro m hm
                simp [handleSubmit, he, hinit] at hm
          | error e =>
              refine ⟨?_, ?_⟩
              · intro hcontra
                simp [handleSubmit, he, hinit, hini] at hcontra
              · intro m hm
                left
                refine ⟨jsTrim s.apiKey, ?_⟩
                simp [handleSubmit, he, hinit, recordCall, List.getLast?_append_cons]
  | didReset hr hini ih =>
      refine ⟨?_, ?_⟩
      · intro hcontra
        simp [handleReset] at hcontra
      · intro m hm
        simp [handleReset] at hm
        have := ih.2 m hm
        simpa [handleReset, notifyParent] using this

/-- C5 amended witness: the invariant evaluated at the configuration
reached by mounting with environment credential "sk-env". -/
theorem C5_amended_witness :
    ((mount okInit initialUI (initialWorld (some "sk-env") none none)).1.isInitialized = true →
      ∃ c, (c, true) ∈ (mount okInit initialUI (initialWorld (some "sk-env") none none)).2.initCalls ∧
        (c = (mount okInit initialUI (initialWorld (some "sk-env") none none)).1.apiKey ∨
         c = jsTrim (mount okInit initialUI (initialWorld (some "sk-env") none none)).1.apiKey)) ∧
    (∀ m, (mount okInit initialUI (initialWorld (some "sk-env") none none)).1.error = some m →
      (∃ c, (mount okInit initialUI (initialWorld (some "sk-env") none none)).2.initCalls.getLast? =
        some (c, false)) ∨ m = "API key is required") :=
  C5_amended_invariant okInit _ _ (Reachable.mounted (some "sk-env") none none)
